import Mathlib

/-!
Shallow embedding of the wallet activity monitoring subsystem of the
algolyticSOL/analyst repository (src/blockchain/sub/listen.js,
src/services/transaction-monitor.js, src/utils/wallet-utils.js).

JavaScript `Set` and `Map` objects are modelled as lists of elements
resp. key/value pairs with the insertion-order preserving `add` / `set` /
`delete` operations spelled out below; `Date.now()` and all network calls
made through the web3 `Connection` object are supplied by an explicit
`Chain` environment, with calls that can throw returning `Except Unit`.
`try { ... } catch { ... }` blocks become pattern matches on those results.
-/

/-- JS `Set.prototype.add`: appends the element unless already present. -/
def setAdd (k : String) (s : List String) : List String :=
  if k ∈ s then s else s ++ [k]

/-- JS `Set.prototype.delete`: removes the element. -/
def setDelete (k : String) (s : List String) : List String :=
  s.filter (fun x => x ≠ k)

/-- JS `Map.prototype.set`: overwrites in place if the key is present, appends otherwise. -/
def mapSet {β : Type} (k : String) (v : β) : List (String × β) → List (String × β)
  | [] => [(k, v)]
  | (k', v') :: rest => if k' = k then (k, v) :: rest else (k', v') :: mapSet k v rest

/-- JS `Map.prototype.delete`: removes the entry for the key. -/
def mapDelete {β : Type} (k : String) (m : List (String × β)) : List (String × β) :=
  m.filter (fun p => p.1 ≠ k)

/-- Number of entries stored under a key (JS maps never hold more than one). -/
def countKey {β : Type} (k : String) (m : List (String × β)) : Nat :=
  (m.filter (fun p => p.1 = k)).length

/-- Result of `connection.getAccountInfo`: balance in lamports and owning program. -/
structure AccountInfo where
  lamports : Nat
  owner : String
  deriving DecidableEq, Repr

/-- The pair of subscription ids recorded by `TransactionMonitor.startMonitoring`
(`{ account: accountSubscriptionId, signature: signatureSubscriptionId }`). -/
structure SubscriptionIds where
  account : Nat
  signature : Nat
  deriving DecidableEq, Repr

/-- One account returned by `getParsedProgramAccounts`; the code reads
`account.account.data.parsed.info.owner`. -/
structure TokenAccount where
  owner : String
  deriving DecidableEq, Repr

/-- One instruction of a parsed transaction; the code only inspects `programId`. -/
structure Instruction where
  programId : String
  deriving DecidableEq, Repr

/-- The `meta` object of a parsed transaction, as used by
`WalletUtils.calculateTransactionValue`. -/
structure TxMeta where
  preBalances : List Int
  postBalances : List Int
  deriving DecidableEq, Repr

/-- A parsed transaction as returned by `connection.getParsedTransaction`:
`transaction.message.instructions` and the optional `meta`. -/
structure ParsedTx where
  instructions : List Instruction
  meta : Option TxMeta
  deriving DecidableEq, Repr

/-- The external environment: the web3 `Connection` plus the clock.
`validPubKey a` says whether `new PublicKey(a)` succeeds; each network call
that can throw yields `Except Unit`. -/
structure Chain where
  validPubKey : String → Bool
  getAccountInfo : String → Except Unit (Option AccountInfo)
  getBalance : String → Except Unit Nat
  getParsedTransaction : String → Except Unit (Option ParsedTx)
  getParsedProgramAccounts : String → Except Unit (List TokenAccount)
  onAccountChange : String → Except Unit Nat
  onLogs : String → Except Unit Nat
  removeAccountChangeListener : Nat → Except Unit Unit
  removeOnLogsListener : Nat → Except Unit Unit
  now : Nat

/-- The mutable fields of `TransactionMonitor`: `monitoredWallets` (a Set),
`subscriptions` (a Map to subscription-id pairs), `lastActivity`
(a Map to `Date.now()` timestamps). -/
structure MonitorState where
  monitoredWallets : List String
  subscriptions : List (String × SubscriptionIds)
  lastActivity : List (String × Nat)
  deriving DecidableEq, Repr

/-- The constructor initializes all three containers empty. -/
def MonitorState.empty : MonitorState :=
  { monitoredWallets := [], subscriptions := [], lastActivity := [] }

/-- Which branch of `startMonitoring` ran, distinguished in the source by its
`console.log` / `console.error` output. -/
inductive StartResult
  | keyError
  | alreadyMonitoring
  | accountSubFailed
  | logsSubFailed
  | started
  deriving DecidableEq, Repr

/-- Which branch of `stopMonitoring` ran, distinguished in the source by its
`console.log` / `console.error` output. -/
inductive StopResult
  | notMonitored
  | removeAccountFailed
  | removeLogsFailed
  | stopped
  deriving DecidableEq, Repr

/-- Embedding of `TransactionMonitor.startMonitoring`. The body is one big
`try`; a throw from `new PublicKey` or either subscription call is caught
after no state was mutated; the already-monitoring check exits early; on
success all three containers are updated. -/
def TransactionMonitor.startMonitoring (c : Chain) (wallet : String)
    (s : MonitorState) : StartResult × MonitorState :=
  if ¬ c.validPubKey wallet then (.keyError, s)
  else if wallet ∈ s.monitoredWallets then (.alreadyMonitoring, s)
  else match c.onAccountChange wallet with
    | .error _ => (.accountSubFailed, s)
    | .ok accountSubscriptionId =>
      match c.onLogs wallet with
      | .error _ => (.logsSubFailed, s)
      | .ok signatureSubscriptionId =>
        (.started,
          { monitoredWallets := setAdd wallet s.monitoredWallets
            subscriptions := mapSet wallet
              ⟨accountSubscriptionId, signatureSubscriptionId⟩ s.subscriptions
            lastActivity := mapSet wallet c.now s.lastActivity })

/-- Embedding of `TransactionMonitor.stopMonitoring`. If no subscription entry
exists the body is a no-op. Otherwise the two listener removals run in
sequence inside the `try`: a throw from the first aborts the whole body (the
second removal and all three deletions are skipped), likewise a throw from
the second; only when both succeed are the bookkeeping entries deleted. -/
def TransactionMonitor.stopMonitoring (c : Chain) (wallet : String)
    (s : MonitorState) : StopResult × MonitorState :=
  match List.lookup wallet s.subscriptions with
  | none => (.notMonitored, s)
  | some subscriptionIds =>
    match c.removeAccountChangeListener subscriptionIds.account with
    | .error _ => (.removeAccountFailed, s)
    | .ok _ =>
      match c.removeOnLogsListener subscriptionIds.signature with
      | .error _ => (.removeLogsFailed, s)
      | .ok _ =>
        (.stopped,
          { monitoredWallets := setDelete wallet s.monitoredWallets
            subscriptions := mapDelete wallet s.subscriptions
            lastActivity := mapDelete wallet s.lastActivity })

/-- Embedding of `TransactionMonitor.isWalletActive`. The JS guard
`if (!lastActivityTime) return false` is also taken when the stored timestamp
is the falsy number 0; otherwise the comparison is the strict
`Date.now() - lastActivityTime < 24 * 60 * 60 * 1000` on (possibly negative)
numbers. -/
def TransactionMonitor.isWalletActive (c : Chain) (wallet : String)
    (s : MonitorState) : Bool :=
  match List.lookup wallet s.lastActivity with
  | none => false
  | some lastActivityTime =>
    if lastActivityTime = 0 then false
    else (c.now : Int) - (lastActivityTime : Int) < 24 * 60 * 60 * 1000

/-- Embedding of `TransactionMonitor.getMonitoredWallets` (`Array.from` of the set). -/
def TransactionMonitor.getMonitoredWallets (s : MonitorState) : List String :=
  s.monitoredWallets

/-- Embedding of `TransactionMonitor.getActiveWallets`. -/
def TransactionMonitor.getActiveWallets (c : Chain) (s : MonitorState) : List String :=
  (TransactionMonitor.getMonitoredWallets s).filter
    (fun wallet => TransactionMonitor.isWalletActive c wallet s)

/-- Embedding of `WalletUtils.isValidWallet` (src/utils/wallet-utils.js).
The module imports only `PublicKey` and `LAMPORTS_PER_SOL` from web3, so the
name `SystemProgram` used on the owner-check line is unbound: once
`getAccountInfo` has returned a non-null account, evaluating
`accountInfo.owner.equals(SystemProgram.programId)` raises a ReferenceError,
which the surrounding `catch` turns into `false`. The balance branch with the
`balance > 0.01 * LAMPORTS_PER_SOL` comparison is therefore unreachable. -/
def WalletUtils.isValidWallet (c : Chain) (address : String) : Bool :=
  if ¬ c.validPubKey address then false
  else match c.getAccountInfo address with
    | .error _ => false
    | .ok none => false
    | .ok (some _) => false

/-- Embedding of `WalletUtils.calculateTransactionValue`: with no `meta` the
value is 0, otherwise the sum over the balance arrays of
`Math.abs((postBalances[i] - preBalances[i]) / LAMPORTS_PER_SOL)`, computed
here in exact rationals. -/
def WalletUtils.calculateTransactionValue (tx : ParsedTx) : ℚ :=
  match tx.meta with
  | none => 0
  | some meta =>
    (meta.preBalances.zip meta.postBalances).foldl
      (fun value p => value + |((p.2 : ℚ) - (p.1 : ℚ)) / 1000000000|) 0

/-- The SPL token program id compared against by `listen.js`. -/
def TOKEN_PROGRAM_ID : String := "TokenkegQfeZyiNwAJbNbGKPFXCWuBvf9Ss623VQ5DA"

/-- Tag of a `walletActivity` event (`event.type`). -/
inductive EventType
  | transaction
  | account_change
  deriving DecidableEq, Repr

/-- The fields of a `walletActivity` event that `Listen`'s handlers read:
the tag, the signature (transaction events) and `accountInfo.lamports`
(account-change events). -/
structure ActivityEvent where
  type : EventType
  wallet : String
  signature : String
  lamports : Nat
  deriving DecidableEq, Repr

/-- The wallet-validity collaborator as `Listen` consumes it: a total
boolean check (the source method catches all of its own errors). -/
structure WalletValidity where
  isValidWallet : String → Bool

/-- The `WalletValidity` interface instantiated with the source
implementation from wallet-utils.js. -/
def WalletUtils.asValidity (c : Chain) : WalletValidity :=
  ⟨WalletUtils.isValidWallet c⟩

/-- The mutable fields of `Listen`: its own `wallets` Set (the WatchSet) and
the owned `TransactionMonitor`. -/
structure ListenState where
  wallets : List String
  monitor : MonitorState
  deriving DecidableEq, Repr

/-- The `Listen` constructor starts with an empty WatchSet and a freshly
constructed monitor. -/
def ListenState.empty : ListenState :=
  { wallets := [], monitor := MonitorState.empty }

/-- Embedding of `Listen.isSignificantTransaction`: a throw from
`getParsedTransaction` is caught and yields `false`; a null transaction
yields `false`; otherwise significant iff some instruction's program id is
the token program and `calculateTransactionValue` exceeds 1.0. -/
def Listen.isSignificantTransaction (c : Chain) (event : ActivityEvent) : Bool :=
  match c.getParsedTransaction event.signature with
  | .error _ => false
  | .ok none => false
  | .ok (some tx) =>
    let isTokenTransfer := tx.instructions.any (fun ix => ix.programId = TOKEN_PROGRAM_ID)
    if ¬ isTokenTransfer then false
    else decide (WalletUtils.calculateTransactionValue tx > 1)

/-- Embedding of `Listen.isSignificantAccountChange`: significant iff
`Math.abs(accountInfo.lamports / 1e9) > 1.0`. -/
def Listen.isSignificantAccountChange (event : ActivityEvent) : Bool :=
  decide (|((event.lamports : ℚ)) / 1000000000| > 1)

/-- Embedding of `Listen.handleWalletActivity`, returning the list of events
emitted on the `significantActivity` channel (the EventBus): the event
itself when the significance check returns true, nothing otherwise. -/
def Listen.handleWalletActivity (c : Chain) (event : ActivityEvent) :
    List ActivityEvent :=
  match event.type with
  | .transaction =>
    if Listen.isSignificantTransaction c event then [event] else []
  | .account_change =>
    if Listen.isSignificantAccountChange event then [event] else []

/-- Embedding of `Listen.addWallet`. The validity check is total, so a
failed check returns `false` with no mutation; otherwise the wallet is added
to the WatchSet, `startMonitoring` runs (swallowing its own errors), and the
method returns `true` — the `catch` branch is unreachable because no step
after the check can throw. -/
def Listen.addWallet (v : WalletValidity) (c : Chain) (wallet : String)
    (s : ListenState) : Bool × ListenState :=
  if ¬ v.isValidWallet wallet then (false, s)
  else
    let s' : ListenState := { s with wallets := setAdd wallet s.wallets }
    (true, { s' with monitor := (TransactionMonitor.startMonitoring c wallet s'.monitor).2 })

/-- Embedding of `Listen.removeWallet`: deletes from the WatchSet, calls
`stopMonitoring` (which swallows its own errors) and returns `true`; the
`catch` branch is unreachable because neither step can throw. -/
def Listen.removeWallet (c : Chain) (wallet : String) (s : ListenState) :
    Bool × ListenState :=
  let s' : ListenState := { s with wallets := setDelete wallet s.wallets }
  (true, { s' with monitor := (TransactionMonitor.stopMonitoring c wallet s'.monitor).2 })

/-- The body of the holder loop in `Listen.__get_last_100`: for each token
account in order, read the owner, check validity, and if valid push the
owner onto `holders` and call `addWallet` (whose boolean result is
discarded). -/
def Listen.scanHolders (v : WalletValidity) (c : Chain) :
    List TokenAccount → ListenState → List String × ListenState
  | [], s => ([], s)
  | account :: rest, s =>
    let walletAddress := account.owner
    if v.isValidWallet walletAddress then
      let s' := (Listen.addWallet v c walletAddress s).2
      let r := Listen.scanHolders v c rest s'
      (walletAddress :: r.1, r.2)
    else Listen.scanHolders v c rest s

/-- Embedding of `Listen.__get_last_100`: fetch the token accounts (a throw
is caught and yields `[]` with no mutation), then run the holder loop over
`tokenAccounts.slice(0, 100)` and return the accumulated `holders` list. -/
def Listen.get_last_100 (v : WalletValidity) (c : Chain) (tokenAddress : String)
    (s : ListenState) : List String × ListenState :=
  match c.getParsedProgramAccounts tokenAddress with
  | .error _ => ([], s)
  | .ok tokenAccounts => Listen.scanHolders v c (tokenAccounts.take 100) s

/-! Lemmas about the JS collection model. -/

theorem mem_setAdd (w k : String) (s : List String) :
    w ∈ setAdd k s ↔ w = k ∨ w ∈ s := by
  unfold setAdd
  by_cases h : k ∈ s
  · simp only [if_pos h]
    constructor
    · exact Or.inr
    · rintro (rfl | hw)
      · exact h
      · exact hw
  · simp [if_neg h, List.mem_append, or_comm]

theorem setAdd_of_mem {k : String} {s : List String} (h : k ∈ s) :
    setAdd k s = s := by
  simp [setAdd, h]

theorem self_mem_setAdd (k : String) (s : List String) : k ∈ setAdd k s := by
  rw [mem_setAdd]; exact Or.inl rfl

theorem mem_setDelete (w k : String) (s : List String) :
    w ∈ setDelete k s ↔ w ∈ s ∧ w ≠ k := by
  simp [setDelete]

theorem lookup_cons_decEq {β : Type} (w k : String) (v : β) (tl : List (String × β)) :
    List.lookup w ((k, v) :: tl) = if w = k then some v else List.lookup w tl := by
  by_cases h : w = k
  · simp [List.lookup_cons, h]
  · simp [List.lookup_cons, h, beq_false_of_ne h]

theorem lookup_mapSet_self {β : Type} (k : String) (v : β) (m : List (String × β)) :
    List.lookup k (mapSet k v m) = some v := by
  induction m with
  | nil => simp [mapSet, lookup_cons_decEq]
  | cons hd tl ih =>
    obtain ⟨k', v'⟩ := hd
    by_cases h : k' = k
    · simp [mapSet, h, lookup_cons_decEq]
    · simp only [mapSet, if_neg h, lookup_cons_decEq]
      rw [if_neg (fun hk => h hk.symm)]
      exact ih

theorem mapSet_cons_eq {β : Type} {k k' : String} (h : k' = k) (v v' : β)
    (tl : List (String × β)) :
    mapSet k v ((k', v') :: tl) = (k, v) :: tl := by
  simp [mapSet, h]

theorem mapSet_cons_ne {β : Type} {k k' : String} (h : k' ≠ k) (v v' : β)
    (tl : List (String × β)) :
    mapSet k v ((k', v') :: tl) = (k', v') :: mapSet k v tl := by
  simp [mapSet, h]

theorem lookup_mapSet_ne {β : Type} {w k : String} (h : w ≠ k) (v : β)
    (m : List (String × β)) :
    List.lookup w (mapSet k v m) = List.lookup w m := by
  induction m with
  | nil =>
    show List.lookup w [(k, v)] = List.lookup w []
    rw [lookup_cons_decEq, if_neg h]
  | cons hd tl ih =>
    obtain ⟨k', v'⟩ := hd
    by_cases hk : k' = k
    · rw [mapSet_cons_eq hk, lookup_cons_decEq, lookup_cons_decEq]
      subst hk
      rw [if_neg h, if_neg h]
    · rw [mapSet_cons_ne hk, lookup_cons_decEq, lookup_cons_decEq]
      by_cases hw : w = k'
      · rw [if_pos hw, if_pos hw]
      · rw [if_neg hw, if_neg hw]
        exact ih

theorem lookup_mapDelete_self {β : Type} (k : String) (m : List (String × β)) :
    List.lookup k (mapDelete k m) = none := by
  induction m with
  | nil => simp [mapDelete, List.lookup]
  | cons hd tl ih =>
    obtain ⟨k', v'⟩ := hd
    by_cases h : k' = k
    · subst h
      simpa [mapDelete, List.filter] using ih
    · simp only [mapDelete, List.filter] at ih ⊢
      have hdk : (decide (k' ≠ k)) = true := by simpa using h
      rw [hdk]
      rw [lookup_cons_decEq]
      rw [if_neg (fun hk => h hk.symm)]
      exact ih

theorem lookup_mapDelete_ne {β : Type} {w k : String} (h : w ≠ k)
    (m : List (String × β)) :
    List.lookup w (mapDelete k m) = List.lookup w m := by
  induction m with
  | nil => simp [mapDelete]
  | cons hd tl ih =>
    obtain ⟨k', v'⟩ := hd
    by_cases hk : k' = k
    · subst hk
      simp only [mapDelete, List.filter] at ih ⊢
      have hdk : (decide (k' ≠ k')) = false := by simp
      rw [hdk, lookup_cons_decEq, if_neg h]
      exact ih
    · simp only [mapDelete, List.filter] at ih ⊢
      have hdk : (decide (k' ≠ k)) = true := by simpa using hk
      rw [hdk, lookup_cons_decEq, lookup_cons_decEq]
      by_cases hw : w = k'
      · simp [if_pos hw]
      · rw [if_neg hw, if_neg hw]
        exact ih

theorem countKey_mapSet_of_zero {β : Type} {k : String} {m : List (String × β)}
    (h : countKey k m = 0) (v : β) : countKey k (mapSet k v m) = 1 := by
  induction m with
  | nil => simp [countKey, mapSet, List.filter]
  | cons hd tl ih =>
    obtain ⟨k', v'⟩ := hd
    by_cases hk : k' = k
    · exfalso
      simp [countKey, List.filter, hk] at h
    · simp only [countKey, List.filter] at h
      have hkb : (decide (k' = k)) = false := by simpa using hk
      rw [hkb] at h
      simp only [mapSet, if_neg hk, countKey, List.filter]
      rw [hkb]
      exact ih h

/-! Concrete environments used to instantiate the claim theorems. -/

/-- A chain environment where every call succeeds blandly except
`getParsedTransaction`, which throws. -/
def c3chain : Chain where
  validPubKey := fun _ => true
  getAccountInfo := fun _ => .ok none
  getBalance := fun _ => .ok 0
  getParsedTransaction := fun _ => .error ()
  getParsedProgramAccounts := fun _ => .ok []
  onAccountChange := fun _ => .ok 0
  onLogs := fun _ => .ok 0
  removeAccountChangeListener := fun _ => .ok ()
  removeOnLogsListener := fun _ => .ok ()
  now := 0

/-- A transaction-tagged activity event. -/
def c3event : ActivityEvent :=
  { type := .transaction, wallet := "A", signature := "sig", lamports := 0 }

/-- C3: whenever the parsed-transaction fetch made while classifying a
transaction event throws, the significance verdict is false and
`handleWalletActivity` emits nothing on the EventBus; no error escapes
(both embedded functions are total). -/
theorem C3_classification_fail_closed (c : Chain) (event : ActivityEvent)
    (htype : event.type = .transaction)
    (herr : c.getParsedTransaction event.signature = .error ()) :
    Listen.isSignificantTransaction c event = false ∧
    Listen.handleWalletActivity c event = [] := by
  have hsig : Listen.isSignificantTransaction c event = false := by
    unfold Listen.isSignificantTransaction
    rw [herr]
  refine ⟨hsig, ?_⟩
  unfold Listen.handleWalletActivity
  rw [htype]
  simp [hsig]

/-- Witness for C3 at a concrete chain and event. -/
theorem C3_classification_fail_closed_witness :
    Listen.isSignificantTransaction c3chain c3event = false ∧
    Listen.handleWalletActivity c3chain c3event = [] :=
  C3_classification_fail_closed c3chain c3event rfl rfl

/-- A fully benign chain environment. -/
def c4chain : Chain where
  validPubKey := fun _ => true
  getAccountInfo := fun _ => .ok none
  getBalance := fun _ => .ok 0
  getParsedTransaction := fun _ => .ok none
  getParsedProgramAccounts := fun _ => .ok []
  onAccountChange := fun _ => .ok 0
  onLogs := fun _ => .ok 0
  removeAccountChangeListener := fun _ => .ok ()
  removeOnLogsListener := fun _ => .ok ()
  now := 0

/-- C4 counterexample: on a fresh `Listen` the address "A" is not being
monitored (no subscription entry), yet `removeWallet("A")` returns true,
not false as claimed. -/
theorem C4_counterexample :
    List.lookup "A" ListenState.empty.monitor.subscriptions = none ∧
    (Listen.removeWallet c4chain "A" ListenState.empty).1 = true := by
  exact ⟨rfl, rfl⟩

/-- C4 amended: for every address with no subscription entry, `removeWallet`
returns true (never false) and only deletes the address from the WatchSet;
the monitor state is untouched. -/
theorem C4_removeWallet_unmonitored (c : Chain) (wallet : String)
    (s : ListenState)
    (h : List.lookup wallet s.monitor.subscriptions = none) :
    Listen.removeWallet c wallet s =
      (true, { s with wallets := setDelete wallet s.wallets }) := by
  have hstop : TransactionMonitor.stopMonitoring c wallet s.monitor =
      (.notMonitored, s.monitor) := by
    unfold TransactionMonitor.stopMonitoring
    rw [h]
  simp only [Listen.removeWallet]
  rw [hstop]

/-- Witness for the amended C4 at a concrete input. -/
theorem C4_removeWallet_unmonitored_witness :
    Listen.removeWallet c4chain "A" ListenState.empty =
      (true, { ListenState.empty with wallets := setDelete "A" ListenState.empty.wallets }) :=
  C4_removeWallet_unmonitored c4chain "A" ListenState.empty rfl

/-- A chain environment whose `removeAccountChangeListener` always throws. -/
def c5chain : Chain where
  validPubKey := fun _ => true
  getAccountInfo := fun _ => .ok none
  getBalance := fun _ => .ok 0
  getParsedTransaction := fun _ => .ok none
  getParsedProgramAccounts := fun _ => .ok []
  onAccountChange := fun _ => .ok 1
  onLogs := fun _ => .ok 2
  removeAccountChangeListener := fun _ => .error ()
  removeOnLogsListener := fun _ => .ok ()
  now := 0

/-- A monitor state with "A" fully monitored. -/
def c5state : MonitorState where
  monitoredWallets := ["A"]
  subscriptions := [("A", ⟨1, 2⟩)]
  lastActivity := [("A", 100)]

/-- C5 counterexample: when releasing the account-change handle throws,
`stopMonitoring` aborts — the log handle is never released and every piece
of bookkeeping for the address (subscription entry, monitored-set
membership, last-activity entry) survives, contradicting the best-effort
claim. -/
theorem C5_counterexample :
    (TransactionMonitor.stopMonitoring c5chain "A" c5state).1
        = .removeAccountFailed ∧
    (TransactionMonitor.stopMonitoring c5chain "A" c5state).2 = c5state ∧
    List.lookup "A"
        (TransactionMonitor.stopMonitoring c5chain "A" c5state).2.subscriptions
      = some ⟨1, 2⟩ ∧
    "A" ∈ (TransactionMonitor.stopMonitoring c5chain "A" c5state).2.monitoredWallets := by
  refine ⟨rfl, rfl, rfl, ?_⟩
  show "A" ∈ c5state.monitoredWallets
  simp [c5state]

/-- C5 amended: when both listener removals succeed, `stopMonitoring`
removes every piece of bookkeeping for the address; when releasing the
first handle throws, the error is caught and nothing at all is released or
removed (the code is not best-effort). -/
theorem C5_stopMonitoring_success (c : Chain) (wallet : String)
    (s : MonitorState) (ids : SubscriptionIds)
    (hsub : List.lookup wallet s.subscriptions = some ids)
    (hacc : c.removeAccountChangeListener ids.account = .ok ())
    (hlog : c.removeOnLogsListener ids.signature = .ok ()) :
    (TransactionMonitor.stopMonitoring c wallet s).1 = .stopped ∧
    wallet ∉ (TransactionMonitor.stopMonitoring c wallet s).2.monitoredWallets ∧
    List.lookup wallet
      (TransactionMonitor.stopMonitoring c wallet s).2.subscriptions = none ∧
    List.lookup wallet
      (TransactionMonitor.stopMonitoring c wallet s).2.lastActivity = none := by
  have hstop : TransactionMonitor.stopMonitoring c wallet s =
      (.stopped,
        { monitoredWallets := setDelete wallet s.monitoredWallets
          subscriptions := mapDelete wallet s.subscriptions
          lastActivity := mapDelete wallet s.lastActivity }) := by
    unfold TransactionMonitor.stopMonitoring
    rw [hsub]
    simp only [hacc, hlog]
  rw [hstop]
  refine ⟨rfl, ?_, ?_, ?_⟩
  · show wallet ∉ setDelete wallet s.monitoredWallets
    rw [mem_setDelete]
    simp
  · exact lookup_mapDelete_self wallet s.subscriptions
  · exact lookup_mapDelete_self wallet s.lastActivity

/-- A chain environment where both listener removals succeed. -/
def c5okchain : Chain where
  validPubKey := fun _ => true
  getAccountInfo := fun _ => .ok none
  getBalance := fun _ => .ok 0
  getParsedTransaction := fun _ => .ok none
  getParsedProgramAccounts := fun _ => .ok []
  onAccountChange := fun _ => .ok 1
  onLogs := fun _ => .ok 2
  removeAccountChangeListener := fun _ => .ok ()
  removeOnLogsListener := fun _ => .ok ()
  now := 0

/-- Witness for the amended C5 at a concrete input. -/
theorem C5_stopMonitoring_success_witness :
    (TransactionMonitor.stopMonitoring c5okchain "A" c5state).1 = .stopped ∧
    "A" ∉ (TransactionMonitor.stopMonitoring c5okchain "A" c5state).2.monitoredWallets ∧
    List.lookup "A"
      (TransactionMonitor.stopMonitoring c5okchain "A" c5state).2.subscriptions = none ∧
    List.lookup "A"
      (TransactionMonitor.stopMonitoring c5okchain "A" c5state).2.lastActivity = none :=
  C5_stopMonitoring_success c5okchain "A" c5state ⟨1, 2⟩ rfl rfl rfl

/-- A state with a last-activity entry for "w" recorded at time 1000. -/
def c7state : MonitorState where
  monitoredWallets := ["w"]
  subscriptions := [("w", ⟨1, 2⟩)]
  lastActivity := [("w", 1000)]

/-- A chain environment whose clock reads exactly 24 hours after 1000. -/
def c7chain : Chain where
  validPubKey := fun _ => true
  getAccountInfo := fun _ => .ok none
  getBalance := fun _ => .ok 0
  getParsedTransaction := fun _ => .ok none
  getParsedProgramAccounts := fun _ => .ok []
  onAccountChange := fun _ => .ok 0
  onLogs := fun _ => .ok 0
  removeAccountChangeListener := fun _ => .ok ()
  removeOnLogsListener := fun _ => .ok ()
  now := 86401000

/-- C7 counterexample: a last-activity entry exists and `now - LastActivity`
equals the 24-hour ttl (so `<= ttl` holds), yet `isWalletActive` returns
false — the source compares with strict `<` and takes no ttl parameter. -/
theorem C7_counterexample :
    List.lookup "w" c7state.lastActivity = some 1000 ∧
    ((c7chain.now : Int) - 1000 ≤ 24 * 60 * 60 * 1000) ∧
    TransactionMonitor.isWalletActive c7chain "w" c7state = false := by
  refine ⟨rfl, by decide, rfl⟩

/-- C7 amended: `isWalletActive` (which takes no ttl argument) returns true
iff a last-activity entry exists, its timestamp is nonzero (the JS falsiness
guard), and `now - LastActivity` is strictly below the hard-coded 24-hour
threshold; with no entry it returns false. -/
theorem C7_isWalletActive_iff (c : Chain) (wallet : String) (s : MonitorState) :
    TransactionMonitor.isWalletActive c wallet s = true ↔
    ∃ t : Nat, List.lookup wallet s.lastActivity = some t ∧ t ≠ 0 ∧
      (c.now : Int) - (t : Int) < 24 * 60 * 60 * 1000 := by
  unfold TransactionMonitor.isWalletActive
  cases hl : List.lookup wallet s.lastActivity with
  | none => simp
  | some t =>
    by_cases ht : t = 0
    · subst ht
      simp
    · simp [ht]

/-- A wallet-validity collaborator that accepts every address. -/
def acceptAll : WalletValidity := ⟨fun _ => true⟩

/-- A chain environment whose account-change subscription always throws. -/
def c1chain : Chain where
  validPubKey := fun _ => true
  getAccountInfo := fun _ => .ok none
  getBalance := fun _ => .ok 0
  getParsedTransaction := fun _ => .ok none
  getParsedProgramAccounts := fun _ => .ok []
  onAccountChange := fun _ => .error ()
  onLogs := fun _ => .ok 2
  removeAccountChangeListener := fun _ => .ok ()
  removeOnLogsListener := fun _ => .ok ()
  now := 0

/-- C1 counterexample: the validity check passes but the account-change
subscription throws; `startMonitoring` swallows the error, so `addWallet`
still returns true while the address is neither in `listMonitored()` nor
holds any subscription. -/
theorem C1_counterexample :
    (Listen.addWallet acceptAll c1chain "A" ListenState.empty).1 = true ∧
    "A" ∉ TransactionMonitor.getMonitoredWallets
      (Listen.addWallet acceptAll c1chain "A" ListenState.empty).2.monitor ∧
    countKey "A"
      (Listen.addWallet acceptAll c1chain "A" ListenState.empty).2.monitor.subscriptions
      = 0 := by
  refine ⟨rfl, ?_, rfl⟩
  show "A" ∉ ([] : List String)
  simp

/-- Computation of `startMonitoring` on its success path. -/
theorem startMonitoring_success (c : Chain) (wallet : String)
    (s : MonitorState) (aid lid : Nat)
    (hkey : c.validPubKey wallet = true)
    (hmem : wallet ∉ s.monitoredWallets)
    (hacc : c.onAccountChange wallet = .ok aid)
    (hlog : c.onLogs wallet = .ok lid) :
    TransactionMonitor.startMonitoring c wallet s =
      (.started,
        { monitoredWallets := setAdd wallet s.monitoredWallets
          subscriptions := mapSet wallet ⟨aid, lid⟩ s.subscriptions
          lastActivity := mapSet wallet c.now s.lastActivity }) := by
  unfold TransactionMonitor.startMonitoring
  rw [hkey, if_neg (by simp), if_neg hmem, hacc]
  simp only [hlog]

/-- Computation of `addWallet` when the validity check passes: the wallet is
added to the WatchSet, the monitor runs `startMonitoring`, and the call
returns true whatever `startMonitoring` did. -/
theorem addWallet_valid (v : WalletValidity) (c : Chain) (wallet : String)
    (s : ListenState) (hv : v.isValidWallet wallet = true) :
    Listen.addWallet v c wallet s =
      (true,
        { wallets := setAdd wallet s.wallets
          monitor := (TransactionMonitor.startMonitoring c wallet s.monitor).2 }) := by
  simp only [Listen.addWallet]
  rw [hv, if_neg (by simp)]

/-- C1 amended: for an address with no prior monitoring state, if
`addWallet(A)` returns true and the monitor's two subscribe calls for A
succeed, then A is in `listMonitored()` and exactly one subscription entry
exists for A. -/
theorem C1_addWallet_true_monitored (v : WalletValidity) (c : Chain)
    (wallet : String) (s : ListenState) (aid lid : Nat)
    (hmem : wallet ∉ s.monitor.monitoredWallets)
    (hcnt : countKey wallet s.monitor.subscriptions = 0)
    (hkey : c.validPubKey wallet = true)
    (hacc : c.onAccountChange wallet = .ok aid)
    (hlog : c.onLogs wallet = .ok lid)
    (hret : (Listen.addWallet v c wallet s).1 = true) :
    wallet ∈ TransactionMonitor.getMonitoredWallets
      (Listen.addWallet v c wallet s).2.monitor ∧
    countKey wallet (Listen.addWallet v c wallet s).2.monitor.subscriptions
      = 1 := by
  have hv : v.isValidWallet wallet = true := by
    by_contra hv
    rw [Bool.not_eq_true] at hv
    simp [Listen.addWallet, hv] at hret
  rw [addWallet_valid v c wallet s hv,
      startMonitoring_success c wallet s.monitor aid lid hkey hmem hacc hlog]
  exact ⟨self_mem_setAdd wallet s.monitor.monitoredWallets,
    countKey_mapSet_of_zero hcnt _⟩

/-- A fully benign chain environment with distinct subscription ids. -/
def c1okchain : Chain where
  validPubKey := fun _ => true
  getAccountInfo := fun _ => .ok none
  getBalance := fun _ => .ok 0
  getParsedTransaction := fun _ => .ok none
  getParsedProgramAccounts := fun _ => .ok []
  onAccountChange := fun _ => .ok 1
  onLogs := fun _ => .ok 2
  removeAccountChangeListener := fun _ => .ok ()
  removeOnLogsListener := fun _ => .ok ()
  now := 7

/-- Witness for the amended C1 at a concrete input. -/
theorem C1_addWallet_true_monitored_witness :
    "A" ∈ TransactionMonitor.getMonitoredWallets
      (Listen.addWallet acceptAll c1okchain "A" ListenState.empty).2.monitor ∧
    countKey "A"
      (Listen.addWallet acceptAll c1okchain "A" ListenState.empty).2.monitor.subscriptions
      = 1 :=
  C1_addWallet_true_monitored acceptAll c1okchain "A" ListenState.empty 1 2
    (by simp [ListenState.empty, MonitorState.empty]) rfl rfl rfl rfl rfl

/-- A chain environment for C2 whose subscriptions always throw. -/
def c2chain : Chain where
  validPubKey := fun _ => true
  getAccountInfo := fun _ => .ok none
  getBalance := fun _ => .ok 0
  getParsedTransaction := fun _ => .ok none
  getParsedProgramAccounts := fun _ => .ok []
  onAccountChange := fun _ => .error ()
  onLogs := fun _ => .error ()
  removeAccountChangeListener := fun _ => .ok ()
  removeOnLogsListener := fun _ => .ok ()
  now := 0

/-- C2 counterexample: with a passing validity check but a throwing
subscribe step, `addWallet` returns true — not false — and the WatchSet does
gain the address, while no subscription exists. -/
theorem C2_counterexample :
    (Listen.addWallet acceptAll c2chain "B" ListenState.empty).1 = true ∧
    "B" ∈ (Listen.addWallet acceptAll c2chain "B" ListenState.empty).2.wallets ∧
    countKey "B"
      (Listen.addWallet acceptAll c2chain "B" ListenState.empty).2.monitor.subscriptions
      = 0 := by
  refine ⟨rfl, ?_, rfl⟩
  show "B" ∈ setAdd "B" []
  exact self_mem_setAdd "B" []

/-- C2 amended: `addWallet(A)` returns false exactly when the validity check
fails, and then the whole state is unchanged; when the validity check
passes, the call returns true and A is added to the WatchSet even if the
subscribe step failed (the monitor swallows subscribe errors). -/
theorem C2_addWallet_failure_behaviour (v : WalletValidity) (c : Chain)
    (wallet : String) (s : ListenState) :
    (v.isValidWallet wallet = false →
      Listen.addWallet v c wallet s = (false, s)) ∧
    (v.isValidWallet wallet = true →
      (Listen.addWallet v c wallet s).1 = true ∧
      wallet ∈ (Listen.addWallet v c wallet s).2.wallets) := by
  constructor
  · intro hv
    simp [Listen.addWallet, hv]
  · intro hv
    rw [addWallet_valid v c wallet s hv]
    exact ⟨rfl, self_mem_setAdd wallet s.wallets⟩

/-- A wallet-validity collaborator that rejects every address. -/
def rejectAll : WalletValidity := ⟨fun _ => false⟩

/-- Witness for the amended C2, exercising both the failing-check branch and
the passing-check branch at concrete inputs. -/
theorem C2_addWallet_failure_behaviour_witness :
    Listen.addWallet rejectAll c2chain "B" ListenState.empty
      = (false, ListenState.empty) ∧
    (Listen.addWallet acceptAll c2chain "B" ListenState.empty).1 = true ∧
    "B" ∈ (Listen.addWallet acceptAll c2chain "B" ListenState.empty).2.wallets :=
  ⟨(C2_addWallet_failure_behaviour rejectAll c2chain "B" ListenState.empty).1 rfl,
   (C2_addWallet_failure_behaviour acceptAll c2chain "B" ListenState.empty).2 rfl⟩

/-- C6: starting from an address with no prior monitoring state, when the
validity check passes and both subscriptions succeed, calling `addWallet`
twice in a row leaves exactly one subscription entry; the second call's
`startMonitoring` takes the already-monitoring early exit, and the second
call returns true with the state completely undisturbed. -/
theorem C6_addWallet_idempotent (v : WalletValidity) (c : Chain)
    (wallet : String) (s : ListenState) (aid lid : Nat)
    (hv : v.isValidWallet wallet = true)
    (hkey : c.validPubKey wallet = true)
    (hacc : c.onAccountChange wallet = .ok aid)
    (hlog : c.onLogs wallet = .ok lid)
    (hmem : wallet ∉ s.monitor.monitoredWallets)
    (hcnt : countKey wallet s.monitor.subscriptions = 0) :
    countKey wallet (Listen.addWallet v c wallet s).2.monitor.subscriptions
      = 1 ∧
    (TransactionMonitor.startMonitoring c wallet
        (Listen.addWallet v c wallet s).2.monitor).1 = .alreadyMonitoring ∧
    Listen.addWallet v c wallet (Listen.addWallet v c wallet s).2
      = (true, (Listen.addWallet v c wallet s).2) := by
  have hm := startMonitoring_success c wallet s.monitor aid lid hkey hmem hacc hlog
  have h1 := addWallet_valid v c wallet s hv
  have hS : (Listen.addWallet v c wallet s).2 =
      { wallets := setAdd wallet s.wallets
        monitor :=
          { monitoredWallets := setAdd wallet s.monitor.monitoredWallets
            subscriptions := mapSet wallet ⟨aid, lid⟩ s.monitor.subscriptions
            lastActivity := mapSet wallet c.now s.monitor.lastActivity } } := by
    rw [h1, hm]
  have hm2 : TransactionMonitor.startMonitoring c wallet
      (Listen.addWallet v c wallet s).2.monitor =
      (.alreadyMonitoring, (Listen.addWallet v c wallet s).2.monitor) := by
    rw [hS]
    unfold TransactionMonitor.startMonitoring
    rw [hkey, if_neg (by simp),
        if_pos (self_mem_setAdd wallet s.monitor.monitoredWallets)]
  refine ⟨?_, ?_, ?_⟩
  · rw [hS]
    exact countKey_mapSet_of_zero hcnt _
  · rw [hm2]
  · rw [addWallet_valid v c wallet (Listen.addWallet v c wallet s).2 hv, hm2, hS]
    rw [setAdd_of_mem (self_mem_setAdd wallet s.wallets)]

/-- A fully benign chain environment used to instantiate C6. -/
def c6chain : Chain where
  validPubKey := fun _ => true
  getAccountInfo := fun _ => .ok none
  getBalance := fun _ => .ok 0
  getParsedTransaction := fun _ => .ok none
  getParsedProgramAccounts := fun _ => .ok []
  onAccountChange := fun _ => .ok 11
  onLogs := fun _ => .ok 12
  removeAccountChangeListener := fun _ => .ok ()
  removeOnLogsListener := fun _ => .ok ()
  now := 3

/-- Witness for C6 at a concrete input. -/
theorem C6_addWallet_idempotent_witness :
    countKey "A"
      (Listen.addWallet acceptAll c6chain "A" ListenState.empty).2.monitor.subscriptions
      = 1 ∧
    (TransactionMonitor.startMonitoring c6chain "A"
        (Listen.addWallet acceptAll c6chain "A" ListenState.empty).2.monitor).1
      = .alreadyMonitoring ∧
    Listen.addWallet acceptAll c6chain "A"
        (Listen.addWallet acceptAll c6chain "A" ListenState.empty).2
      = (true, (Listen.addWallet acceptAll c6chain "A" ListenState.empty).2) :=
  C6_addWallet_idempotent acceptAll c6chain "A" ListenState.empty 11 12
    rfl rfl rfl rfl (by simp [ListenState.empty, MonitorState.empty]) rfl

/-- The base system program id checked by the (unreachable) owner test. -/
def systemProgramId : String := "11111111111111111111111111111111"

/-- A chain environment where "W1" resolves to an existing account owned by
the system program with a 0.02-SOL (20000000-lamport) balance, above the
0.01-SOL minimum. -/
def c8chain : Chain where
  validPubKey := fun _ => true
  getAccountInfo := fun _ => .ok (some { lamports := 20000000, owner := systemProgramId })
  getBalance := fun _ => .ok 20000000
  getParsedTransaction := fun _ => .ok none
  getParsedProgramAccounts := fun _ => .ok []
  onAccountChange := fun _ => .ok 1
  onLogs := fun _ => .ok 2
  removeAccountChangeListener := fun _ => .ok ()
  removeOnLogsListener := fun _ => .ok ()
  now := 0

/-- C8 evaluated at the failing input: "W1" exists, is owned by the system
program and holds 0.02 SOL, yet `isValidWallet` returns false (the unbound
`SystemProgram` reference throws before the owner check can run) and
`addWallet` therefore returns false with no state change, where the claim
requires true. -/
theorem C8_system_wallet_rejected :
    c8chain.getAccountInfo "W1"
      = .ok (some { lamports := 20000000, owner := systemProgramId }) ∧
    c8chain.getBalance "W1" = .ok 20000000 ∧
    WalletUtils.isValidWallet c8chain "W1" = false ∧
    Listen.addWallet (WalletUtils.asValidity c8chain) c8chain "W1"
        ListenState.empty
      = (false, ListenState.empty) :=
  ⟨rfl, rfl, rfl, rfl⟩

/-- The holders list accumulated by the scan loop is exactly the owners of
the scanned accounts that pass the validity check, in order. -/
theorem scanHolders_fst (v : WalletValidity) (c : Chain)
    (accs : List TokenAccount) :
    ∀ s : ListenState,
      (Listen.scanHolders v c accs s).1 =
        (accs.map TokenAccount.owner).filter (fun w => v.isValidWallet w) := by
  induction accs with
  | nil => intro s; simp [Listen.scanHolders]
  | cons account rest ih =>
    intro s
    by_cases h : v.isValidWallet account.owner = true
    · simp [Listen.scanHolders, h, ih]
    · rw [Bool.not_eq_true] at h
      simp [Listen.scanHolders, h, ih]

/-- C9 amended: when the token-account fetch succeeds, the bulk-discovery
operation considers only the first 100 accounts, skips owners failing the
validity check, and returns exactly the valid owners in discovery order —
whether or not the `addWallet` call for an owner actually began
monitoring. -/
theorem C9_get_last_100_holders (v : WalletValidity) (c : Chain)
    (tokenAddress : String) (s : ListenState) (accs : List TokenAccount)
    (h : c.getParsedProgramAccounts tokenAddress = .ok accs) :
    (Listen.get_last_100 v c tokenAddress s).1 =
      ((accs.take 100).map TokenAccount.owner).filter
        (fun w => v.isValidWallet w) := by
  unfold Listen.get_last_100
  rw [h]
  exact scanHolders_fst v c (accs.take 100) s

/-- A validity collaborator that accepts only "h1". -/
def c9validity : WalletValidity := ⟨fun w => w == "h1"⟩

/-- A chain environment returning two token accounts, with throwing
subscriptions. -/
def c9wchain : Chain where
  validPubKey := fun _ => true
  getAccountInfo := fun _ => .ok none
  getBalance := fun _ => .ok 0
  getParsedTransaction := fun _ => .ok none
  getParsedProgramAccounts := fun _ => .ok [⟨"h1"⟩, ⟨"h2"⟩]
  onAccountChange := fun _ => .ok 1
  onLogs := fun _ => .ok 2
  removeAccountChangeListener := fun _ => .ok ()
  removeOnLogsListener := fun _ => .ok ()
  now := 0

/-- Witness for the amended C9 at a concrete input. -/
theorem C9_get_last_100_holders_witness :
    (Listen.get_last_100 c9validity c9wchain "tok" ListenState.empty).1
      = ["h1"] := by
  rw [C9_get_last_100_holders c9validity c9wchain "tok" ListenState.empty
    [⟨"h1"⟩, ⟨"h2"⟩] rfl]
  rfl

/-- A chain environment with one token holder whose subscribe step throws. -/
def c9chain : Chain where
  validPubKey := fun _ => true
  getAccountInfo := fun _ => .ok none
  getBalance := fun _ => .ok 0
  getParsedTransaction := fun _ => .ok none
  getParsedProgramAccounts := fun _ => .ok [⟨"h1"⟩]
  onAccountChange := fun _ => .error ()
  onLogs := fun _ => .ok 2
  removeAccountChangeListener := fun _ => .ok ()
  removeOnLogsListener := fun _ => .ok ()
  now := 0

/-- C9 counterexample: holder "h1" passes validation but its subscribe step
throws, so monitoring never began for it — yet the operation still returns
["h1"], contradicting "exactly the list of holder addresses it successfully
began monitoring". -/
theorem C9_counterexample :
    (Listen.get_last_100 acceptAll c9chain "tok" ListenState.empty).1 = ["h1"] ∧
    "h1" ∉ TransactionMonitor.getMonitoredWallets
      (Listen.get_last_100 acceptAll c9chain "tok" ListenState.empty).2.monitor := by
  refine ⟨rfl, ?_⟩
  show "h1" ∉ ([] : List String)
  simp

/-- Key-set alignment: the monitored-wallet set, the subscriptions map and
the last-activity map hold exactly the same addresses. -/
def KeysAligned (s : MonitorState) : Prop :=
  ∀ w : String,
    (w ∈ s.monitoredWallets ↔ (List.lookup w s.subscriptions).isSome = true) ∧
    (w ∈ s.monitoredWallets ↔ (List.lookup w s.lastActivity).isSome = true)

theorem keysAligned_empty : KeysAligned MonitorState.empty := by
  intro w
  constructor <;> simp [MonitorState.empty, List.lookup]

theorem keysAligned_start (c : Chain) (wallet : String) {s : MonitorState}
    (h : KeysAligned s) :
    KeysAligned (TransactionMonitor.startMonitoring c wallet s).2 := by
  unfold TransactionMonitor.startMonitoring
  split
  · exact h
  · split
    · exact h
    · split
      · exact h
      · split
        · exact h
        · intro w
          by_cases hw : w = wallet
          · subst hw
            constructor
            · constructor
              · intro _
                rw [lookup_mapSet_self]
                rfl
              · intro _
                exact self_mem_setAdd w s.monitoredWallets
            · constructor
              · intro _
                rw [lookup_mapSet_self]
                rfl
              · intro _
                exact self_mem_setAdd w s.monitoredWallets
          · have hmem : w ∈ setAdd wallet s.monitoredWallets ↔
                w ∈ s.monitoredWallets := by
              rw [mem_setAdd]
              simp [hw]
            constructor
            · rw [hmem, lookup_mapSet_ne hw]
              exact (h w).1
            · rw [hmem, lookup_mapSet_ne hw]
              exact (h w).2

theorem keysAligned_stop (c : Chain) (wallet : String) {s : MonitorState}
    (h : KeysAligned s) :
    KeysAligned (TransactionMonitor.stopMonitoring c wallet s).2 := by
  unfold TransactionMonitor.stopMonitoring
  split
  · exact h
  · split
    · exact h
    · split
      · exact h
      · intro w
        by_cases hw : w = wallet
        · subst hw
          constructor
          · constructor
            · intro hmem
              exfalso
              rw [mem_setDelete] at hmem
              exact hmem.2 rfl
            · intro hlk
              rw [lookup_mapDelete_self] at hlk
              exact absurd hlk (by simp)
          · constructor
            · intro hmem
              exfalso
              rw [mem_setDelete] at hmem
              exact hmem.2 rfl
            · intro hlk
              rw [lookup_mapDelete_self] at hlk
              exact absurd hlk (by simp)
        · have hmem : w ∈ setDelete wallet s.monitoredWallets ↔
              w ∈ s.monitoredWallets := by
            rw [mem_setDelete]
            simp [hw]
          constructor
          · rw [hmem, lookup_mapDelete_ne hw]
            exact (h w).1
          · rw [hmem, lookup_mapDelete_ne hw]
            exact (h w).2

/-- One registry mutation of a trace: a `startMonitoring` or `stopMonitoring`
call. -/
inductive MonOp
  | start (wallet : String)
  | stop (wallet : String)

/-- Run a trace of `startMonitoring` / `stopMonitoring` calls against a
chain environment. -/
def runOps (c : Chain) : List MonOp → MonitorState → MonitorState
  | [], s => s
  | op :: rest, s =>
    runOps c rest
      (match op with
        | .start wallet => (TransactionMonitor.startMonitoring c wallet s).2
        | .stop wallet => (TransactionMonitor.stopMonitoring c wallet s).2)

/-- C10: starting from the empty registry, after any sequence of completed
`startMonitoring` / `stopMonitoring` calls (in particular any sequence in
which no chain call throws — thrown calls leave the state untouched), the
monitored-wallet set, the subscriptions map and the last-activity map hold
exactly the same addresses. -/
theorem C10_registry_keys_aligned (c : Chain) (ops : List MonOp) :
    KeysAligned (runOps c ops MonitorState.empty) := by
  have main : ∀ (l : List MonOp) (s : MonitorState), KeysAligned s →
      KeysAligned (runOps c l s) := by
    intro l
    induction l with
    | nil => intro s hs; exact hs
    | cons op rest ih =>
      intro s hs
      cases op with
      | start wallet => exact ih _ (keysAligned_start c wallet hs)
      | stop wallet => exact ih _ (keysAligned_stop c wallet hs)
  exact main ops MonitorState.empty keysAligned_empty
